import Mathlib

/-!
The `Game` orchestrator of glPortal (source/Game.cpp).

A shallow embedding of `glPortal::Game`:

* the clock fields `currentTime`, `nextUpdate`, `lastUpdate`, `lastRender` and the
  constants `SKIP_TIME`, `MAX_SKIP` are declared in `Game.hpp`; they are integer
  millisecond quantities, embedded as `Int`, and the two constants are parameters
  of every operation that reads them;
* the local `int elapsedTime` of `Game::update` is a 32-bit signed integer: the value
  stored in it is the clock difference wrapped into `[-2^31, 2^31)` by `toInt32`;
* values handed back by collaborators (`SDL_GetTicks()`, `window.isKeyDown`,
  `window.getSize`, `world.getPlayer()`, `Environment::getDataDir()`) are arguments
  of the operation that asks for them;
* calls issued to collaborators (window, world, sound manager, map loader, renderers)
  are appended, in program order, to the `calls` trace of the state;
* scalars of the engine's vector type are an arbitrary type `F` with the operations
  the code uses, orientations an arbitrary type `O`.
-/

namespace glPortal

/-- Three component vector of the engine (`Vector3f`). -/
structure Vector3f (F : Type) where
  x : F
  y : F
  z : F
  deriving DecidableEq, Repr

/-- Component-wise sum, the engine's `operator+` on `Vector3f`. -/
def Vector3f.add {F : Type} [Add F] (a b : Vector3f F) : Vector3f F :=
  ⟨a.x + b.x, a.y + b.y, a.z + b.z⟩

instance {F : Type} [Add F] : Add (Vector3f F) := ⟨Vector3f.add⟩

/-- The `Transform` component, as far as `Game` reads it. -/
structure Transform (F : Type) where
  position : Vector3f F
  scale : Vector3f F
  deriving DecidableEq, Repr

/-- The `Player` component, as far as `Game` reads it. -/
structure Player (O : Type) where
  headOrientation : O
  deriving DecidableEq, Repr

/-- The entity returned by `world.getPlayer()` with the two components `Game` reads. -/
structure Entity (F O : Type) where
  transform : Transform F
  player : Player O
  deriving DecidableEq, Repr

/-- The camera object owned by `Game`, with the fields its setters write. -/
structure Camera (F O : Type) where
  perspective : Bool
  aspect : F
  position : Vector3f F
  orientation : O
  deriving DecidableEq, Repr

/-- The configuration fields consumed by `Game`. -/
structure Config where
  cursorVisibility : Bool
  mapPath : String
  deriving DecidableEq, Repr

/-- Calls that `Game` issues to its collaborators. `rendererRender` records the
millisecond difference `currentTime - lastRender` that the code divides by `1000.`. -/
inductive Call where
  | windowProcessEvents
  | soundManagerUpdate
  | worldUpdate (msec : Int)
  | worldDestroy
  | windowClose
  | mapLoaderLoad (path : String)
  | rendererRender (msecSinceLastRender : Int)
  | uiRendererRender
  | fpsCountCycle
  | windowSwapBuffers
  deriving DecidableEq, Repr

/-- State of a `Game` object after `init()`. -/
structure Game (F O : Type) where
  closed : Bool
  config : Config
  currentTime : Int
  nextUpdate : Int
  lastUpdate : Int
  lastRender : Int
  camera : Camera F O
  calls : List Call

section operations

variable {F O : Type}

/-- Embeds `Game::isRunning`. -/
def Game.isRunning (g : Game F O) : Bool :=
  !g.closed

/-- Embeds `Game::close`. -/
def Game.close (g : Game F O) : Game F O :=
  { g with closed := true }

/-- Embeds `Game::loadMap`; `dataDir` is the value of `Environment::getDataDir()`. -/
def Game.loadMap (g : Game F O) (dataDir : String) : Game F O :=
  let mapPath := g.config.mapPath
  if mapPath.length > 0 then
    { g with calls := g.calls ++ [Call.mapLoaderLoad mapPath] }
  else
    { g with calls := g.calls ++ [Call.mapLoaderLoad (dataDir ++ "/maps/n1.xml")] }

/-- The `while` loop of `Game::update`, started with the given values of `nextUpdate`
and `skipped`; returns their values when the loop exits. -/
def catchUp (SKIP_TIME MAX_SKIP currentTime : Int) (nextUpdate skipped : Int) : Int × Int :=
  if currentTime > nextUpdate ∧ skipped < MAX_SKIP then
    catchUp SKIP_TIME MAX_SKIP currentTime (nextUpdate + SKIP_TIME) (skipped + 1)
  else
    (nextUpdate, skipped)
termination_by (MAX_SKIP - skipped).toNat
decreasing_by omega

/-- Value held by a 32-bit `int` initialised from the integer `x`: `x` reduced modulo
`2^32` into the range `[-2^31, 2^31)`. -/
def toInt32 (x : Int) : Int :=
  (x + 2147483648) % 4294967296 - 2147483648

/-- Final value of the local `skipped` in `Game::update` called when `SDL_GetTicks()`
returns `ticks`. -/
def Game.skipped (SKIP_TIME MAX_SKIP : Int) (g : Game F O) (ticks : Int) : Int :=
  (catchUp SKIP_TIME MAX_SKIP ticks g.nextUpdate 0).2

/-- Embeds `Game::update`; `ticks` is the value of `SDL_GetTicks()`. -/
def Game.update (SKIP_TIME MAX_SKIP : Int) (g : Game F O) (ticks : Int) : Game F O :=
  let currentTime := ticks
  let nextUpdate := (catchUp SKIP_TIME MAX_SKIP currentTime g.nextUpdate 0).1
  let elapsedTime := toInt32 (currentTime - g.lastUpdate)
  { g with
    currentTime := currentTime
    nextUpdate := nextUpdate
    lastUpdate := currentTime
    calls := g.calls ++ [Call.soundManagerUpdate, Call.worldUpdate elapsedTime] }

/-- Embeds `Game::processInput`; `qDown` is the value of `window.isKeyDown(SDL_SCANCODE_Q)`. -/
def Game.processInput (g : Game F O) (qDown : Bool) : Game F O :=
  let g1 := { g with calls := g.calls ++ [Call.windowProcessEvents] }
  if qDown then g1.close else g1

/-- Embeds `Game::cleanUp`. -/
def Game.cleanUp (g : Game F O) : Game F O :=
  { g with calls := g.calls ++ [Call.worldDestroy, Call.windowClose] }

/-- Embeds `Game::prepareCamera`; the viewport size is what `window.getSize` writes, `player`
what `world.getPlayer()` returns. -/
def Game.prepareCamera [Add F] [Zero F] [Div F] [IntCast F] (g : Game F O)
    (viewportWidth viewportHeight : Int) (player : Entity F O) : Game F O :=
  let c1 := { g.camera with perspective := true }
  let c2 := { c1 with aspect := (viewportWidth : F) / (viewportHeight : F) }
  let playerTransform := player.transform
  let headOffset : Vector3f F := ⟨0, playerTransform.scale.y, 0⟩
  let c3 := { c2 with position := playerTransform.position + headOffset }
  let playerComponent := player.player
  let c4 := { c3 with orientation := playerComponent.headOrientation }
  { g with camera := c4 }

/-- Embeds `Game::render`. -/
def Game.render [Add F] [Zero F] [Div F] [IntCast F] (g : Game F O)
    (viewportWidth viewportHeight : Int) (player : Entity F O) : Game F O :=
  let g1 := g.prepareCamera viewportWidth viewportHeight player
  { g1 with
    calls := g1.calls ++ [Call.rendererRender (g1.currentTime - g1.lastRender),
      Call.uiRendererRender, Call.fpsCountCycle, Call.windowSwapBuffers]
    lastRender := g1.currentTime }

/-- One call of a public per-frame operation, with the values its collaborators return. -/
inductive Op (F O : Type) where
  | processInput (qDown : Bool)
  | update (ticks : Int)
  | render (viewportWidth viewportHeight : Int) (player : Entity F O)
  | cleanUp
  | close

/-- Effect of one operation. -/
def Game.step [Add F] [Zero F] [Div F] [IntCast F] (SKIP_TIME MAX_SKIP : Int)
    (g : Game F O) : Op F O → Game F O
  | Op.processInput qDown => g.processInput qDown
  | Op.update ticks => g.update SKIP_TIME MAX_SKIP ticks
  | Op.render w h player => g.render w h player
  | Op.cleanUp => g.cleanUp
  | Op.close => g.close

/-- Effect of a sequence of operations, first to last. -/
def Game.run [Add F] [Zero F] [Div F] [IntCast F] (SKIP_TIME MAX_SKIP : Int)
    (g : Game F O) (ops : List (Op F O)) : Game F O :=
  ops.foldl (Game.step SKIP_TIME MAX_SKIP) g

/-- Successive `Game::update` calls at the given tick values; returns the final state
and the sum of the `skipped` counts of the calls. -/
def Game.updates (SKIP_TIME MAX_SKIP : Int) : Game F O → List Int → Game F O × Int
  | g, [] => (g, 0)
  | g, t :: ts =>
    let r := Game.updates SKIP_TIME MAX_SKIP (g.update SKIP_TIME MAX_SKIP t) ts
    (r.1, g.skipped SKIP_TIME MAX_SKIP t + r.2)

/-- Number of `world.update` calls in a trace. -/
def worldUpdateCount (cs : List Call) : Nat :=
  (cs.filter (fun c => match c with | Call.worldUpdate _ => true | _ => false)).length

/-- Sample state over rational scalars: a running game with every clock field at zero,
no configured map and an empty call trace. -/
def sampleGame : Game ℚ Unit :=
  { closed := false
    config := { cursorVisibility := false, mapPath := "" }
    currentTime := 0
    nextUpdate := 0
    lastUpdate := 0
    lastRender := 0
    camera := { perspective := false, aspect := 0, position := ⟨0, 0, 0⟩, orientation := () }
    calls := [] }

/-- Sample player entity: position `(1, 2, 3)`, scale `(1, 1.8, 1)`. -/
def samplePlayer : Entity ℚ Unit :=
  { transform := { position := ⟨1, 2, 3⟩, scale := ⟨1, 9 / 5, 1⟩ }
    player := { headOrientation := () } }

end operations

/-! ## The catch-up loop -/

/-- Shape of the loop result: it ran `k` times, every iteration found the guard true,
and the guard is false at exit. -/
theorem catchUp_spec (S M cur : Int) :
    ∀ (n : Nat) (next sk : Int), (M - sk).toNat = n →
      ∃ k : Nat, catchUp S M cur next sk = (next + k * S, sk + k) ∧
        (sk ≤ M → sk + k ≤ M) ∧
        (∀ j : Nat, j < k → cur > next + j * S) ∧
        ¬ (cur > next + k * S ∧ sk + k < M) := by
  intro n
  induction n with
  | zero =>
    intro next sk h
    refine ⟨0, ?_, ?_, ?_, ?_⟩
    · rw [catchUp]
      have : ¬ (cur > next ∧ sk < M) := by omega
      simp [this]
    · intro h1; simpa using h1
    · intro j hj; omega
    · simp; omega
  | succ n ih =>
    intro next sk h
    by_cases hg : cur > next ∧ sk < M
    · obtain ⟨k, hk, hb, hall, hstop⟩ := ih (next + S) (sk + 1) (by omega)
      refine ⟨k + 1, ?_, ?_, ?_, ?_⟩
      · rw [catchUp, if_pos hg, hk]
        push_cast
        ext <;> simp <;> ring
      · intro _
        have := hb (by omega)
        push_cast; omega
      · intro j hj
        rcases Nat.eq_zero_or_pos j with h0 | hpos
        · subst h0; simpa using hg.1
        · obtain ⟨i, rfl⟩ : ∃ i, j = i + 1 := ⟨j - 1, by omega⟩
          have := hall i (by omega)
          push_cast
          linarith
      · push_cast
        intro hc
        apply hstop
        constructor
        · linarith [hc.1]
        · linarith [hc.2]
    · refine ⟨0, ?_, ?_, ?_, ?_⟩
      · rw [catchUp, if_neg hg]; simp
      · intro h1; simpa using h1
      · intro j hj; omega
      · simpa using hg

/-- The loop does nothing when the wall clock has not passed `nextUpdate`. -/
theorem catchUp_not_due (S M cur next sk : Int) (h : cur ≤ next) :
    catchUp S M cur next sk = (next, sk) := by
  rw [catchUp]
  have : ¬ (cur > next ∧ sk < M) := by omega
  simp [this]

/-- Started with `skipped = 0` and a non-negative budget, the loop runs `k ≤ MAX_SKIP`
times. -/
theorem catchUp_from_zero (S M cur next : Int) (hM : 0 ≤ M) :
    ∃ k : Nat, catchUp S M cur next 0 = (next + k * S, (k : Int)) ∧ (k : Int) ≤ M ∧
      (∀ j : Nat, j < k → cur > next + j * S) ∧
      ¬ (cur > next + k * S ∧ (k : Int) < M) := by
  obtain ⟨k, hk, hb, hall, hstop⟩ := catchUp_spec S M cur _ next 0 rfl
  refine ⟨k, ?_, ?_, hall, ?_⟩
  · simpa using hk
  · simpa using hb hM
  · simpa using hstop

/-- With a positive step and a lag within the budget, the loop stops at the first
multiple of the step that reaches the wall clock. -/
theorem catchUp_caught (S M cur next : Int) (hS : 0 < S) (hlag : next < cur)
    (hfit : cur - next ≤ M * S) :
    ∃ k : Nat, catchUp S M cur next 0 = (next + k * S, (k : Int)) ∧
      ((k : Int) - 1) * S < cur - next ∧ cur - next ≤ k * S := by
  have hMpos : 0 < M := by
    by_contra hneg
    have : M * S ≤ 0 := mul_nonpos_of_nonpos_of_nonneg (by omega) hS.le
    omega
  obtain ⟨k, hk, hkM, hall, hstop⟩ := catchUp_from_zero S M cur next hMpos.le
  refine ⟨k, hk, ?_, ?_⟩
  · rcases Nat.eq_zero_or_pos k with h0 | hpos
    · subst h0
      exfalso
      apply hstop
      simp
      omega
    · have := hall (k - 1) (by omega)
      have hc : ((k - 1 : Nat) : Int) = (k : Int) - 1 := by omega
      rw [hc] at this
      linarith
  · by_cases hc : cur > next + k * S
    · have hkM2 : (k : Int) = M := by
        by_contra hne
        exact hstop ⟨hc, by omega⟩
      rw [hkM2]; exact hfit
    · linarith

/-- With a positive step and a lag beyond the budget, the loop uses the whole budget. -/
theorem catchUp_saturated (S M cur next : Int) (hS : 0 < S) (hM : 0 ≤ M)
    (hlag : cur - next > M * S) :
    catchUp S M cur next 0 = (next + M * S, M) := by
  obtain ⟨k, hk, hkM, _, hstop⟩ := catchUp_from_zero S M cur next hM
  have hkM2 : (k : Int) = M := by
    by_contra hne
    have hlt : (k : Int) < M := by omega
    apply hstop
    refine ⟨?_, hlt⟩
    have : (k : Int) * S ≤ M * S := mul_le_mul_of_nonneg_right hkM hS.le
    linarith
  rw [hk, hkM2]

/-- Integer bounds that pin down a rational ceiling. -/
theorem ceil_div_of_bounds (d S k : Int) (hS : 0 < S) (hlo : (k - 1) * S < d)
    (hhi : d ≤ k * S) : ⌈(d : ℚ) / (S : ℚ)⌉ = k := by
  have hSq : (0 : ℚ) < (S : ℚ) := by exact_mod_cast hS
  rw [Int.ceil_eq_iff]
  constructor
  · rw [lt_div_iff₀ hSq]
    exact_mod_cast hlo
  · rw [div_le_iff₀ hSq]
    exact_mod_cast hhi

/-! ## Scheduler -/

section scheduler

variable {F O : Type}

/-- C1: with `MAX_SKIP ≥ 0`, one `Game::update` runs its catch-up loop `k` times with
`0 ≤ k ≤ MAX_SKIP`, whatever the wall time, and leaves
`nextUpdate = nextUpdate_initial + k * SKIP_TIME` for that `k`. -/
theorem update_steps_bounded (SKIP_TIME MAX_SKIP : Int) (g : Game F O) (currentTime : Int)
    (hM : 0 ≤ MAX_SKIP) :
    ∃ k : Int, 0 ≤ k ∧ k ≤ MAX_SKIP ∧ g.skipped SKIP_TIME MAX_SKIP currentTime = k ∧
      (g.update SKIP_TIME MAX_SKIP currentTime).nextUpdate = g.nextUpdate + k * SKIP_TIME := by
  obtain ⟨k, hk, hkM, _, _⟩ := catchUp_from_zero SKIP_TIME MAX_SKIP currentTime g.nextUpdate hM
  exact ⟨k, Int.natCast_nonneg k, hkM, by simp [Game.skipped, hk], by simp [Game.update, hk]⟩

/-- Instance of C1: a jump of 100000 ms with `SKIP_TIME = 16`, `MAX_SKIP = 5`. -/
theorem update_steps_bounded_witness :
    (0 : Int) ≤ 5 ∧ ∃ k : Int, 0 ≤ k ∧ k ≤ 5 ∧ sampleGame.skipped 16 5 100000 = k ∧
      (sampleGame.update 16 5 100000).nextUpdate = sampleGame.nextUpdate + k * 16 :=
  ⟨by decide, update_steps_bounded 16 5 sampleGame 100000 (by decide)⟩

/-- C2 as stated fails: one millisecond past `nextUpdate` (`SKIP_TIME = 16`,
`MAX_SKIP = 5`) the loop runs once, while `floor (1 / 16) = 0`. -/
theorem update_steps_floor_counterexample :
    (0 : Int) < 16 ∧ (1 : Int) - sampleGame.nextUpdate < 5 * 16 ∧
      sampleGame.skipped 16 5 1 = 1 ∧
      ⌊(((1 : Int) - sampleGame.nextUpdate : Int) : ℚ) / ((16 : Int) : ℚ)⌋ = 0 ∧
      sampleGame.skipped 16 5 1 ≠
        ⌊(((1 : Int) - sampleGame.nextUpdate : Int) : ℚ) / ((16 : Int) : ℚ)⌋ := by
  have hs : sampleGame.skipped 16 5 1 = 1 := by
    obtain ⟨k, hk, hlo, hhi⟩ := catchUp_caught 16 5 1 0 (by decide) (by decide) (by decide)
    have : (k : Int) = 1 := by omega
    simp [Game.skipped, sampleGame, hk, this]
  have hf : ⌊(((1 : Int) - sampleGame.nextUpdate : Int) : ℚ) / ((16 : Int) : ℚ)⌋ = 0 := by
    rw [Int.floor_eq_iff]
    simp [sampleGame]
    norm_num
  refine ⟨by decide, by decide, hs, hf, ?_⟩
  rw [hs, hf]
  decide

/-- C2 (amended): with `SKIP_TIME > 0` and
`currentTime - nextUpdate_initial < MAX_SKIP * SKIP_TIME`, the final `skipped` of one
`Game::update` is `ceil ((currentTime - nextUpdate_initial) / SKIP_TIME)`, and `0` when
that ceiling is negative. -/
theorem update_steps_ceil (SKIP_TIME MAX_SKIP : Int) (g : Game F O) (currentTime : Int)
    (hS : 0 < SKIP_TIME) (hfit : currentTime - g.nextUpdate < MAX_SKIP * SKIP_TIME) :
    g.skipped SKIP_TIME MAX_SKIP currentTime =
      max 0 ⌈((currentTime - g.nextUpdate : Int) : ℚ) / ((SKIP_TIME : Int) : ℚ)⌉ := by
  have hSq : (0 : ℚ) < ((SKIP_TIME : Int) : ℚ) := by exact_mod_cast hS
  by_cases hlag : g.nextUpdate < currentTime
  · obtain ⟨k, hk, hlo, hhi⟩ :=
      catchUp_caught SKIP_TIME MAX_SKIP currentTime g.nextUpdate hS hlag hfit.le
    rw [ceil_div_of_bounds _ _ (k : Int) hS hlo hhi]
    simp [Game.skipped, hk]
  · have hle : currentTime ≤ g.nextUpdate := by omega
    have hc : ⌈((currentTime - g.nextUpdate : Int) : ℚ) / ((SKIP_TIME : Int) : ℚ)⌉ ≤ 0 := by
      rw [Int.ceil_le]
      apply div_nonpos_of_nonpos_of_nonneg _ hSq.le
      exact_mod_cast (by omega : currentTime - g.nextUpdate ≤ 0)
    rw [max_eq_left hc]
    simp [Game.skipped, catchUp_not_due _ _ _ _ _ hle]

/-- Instance of the amended C2: 33 ms of lag with `SKIP_TIME = 16`, `MAX_SKIP = 5`. -/
theorem update_steps_ceil_witness :
    (0 : Int) < 16 ∧ (33 : Int) - sampleGame.nextUpdate < 5 * 16 ∧
      sampleGame.skipped 16 5 33 =
        max 0 ⌈(((33 : Int) - sampleGame.nextUpdate : Int) : ℚ) / ((16 : Int) : ℚ)⌉ :=
  ⟨by decide, by decide, update_steps_ceil 16 5 sampleGame 33 (by decide) (by decide)⟩

/-- C3 as stated fails: at wall time 0 with `nextUpdate = 0` the loop runs zero times
and at wall time 48 it runs three times (`SKIP_TIME = 16`, `MAX_SKIP = 5`), yet each
pass issues exactly one `world.update`. -/
theorem update_advances_counterexample :
    sampleGame.skipped 16 5 0 = 0 ∧
      worldUpdateCount (sampleGame.update 16 5 0).calls =
        worldUpdateCount sampleGame.calls + 1 ∧
      sampleGame.skipped 16 5 48 = 3 ∧
      worldUpdateCount (sampleGame.update 16 5 48).calls =
        worldUpdateCount sampleGame.calls + 1 ∧
      worldUpdateCount (sampleGame.update 16 5 48).calls ≠
        worldUpdateCount sampleGame.calls + 3 := by
  have h0 : sampleGame.skipped 16 5 0 = 0 := by
    simp [Game.skipped, sampleGame, catchUp_not_due]
  have h48 : sampleGame.skipped 16 5 48 = 3 := by
    obtain ⟨k, hk, hlo, hhi⟩ := catchUp_caught 16 5 48 0 (by decide) (by decide) (by decide)
    have : (k : Int) = 3 := by omega
    simp [Game.skipped, sampleGame, hk, this]
  refine ⟨h0, ?_, h48, ?_, ?_⟩ <;> simp [Game.update, sampleGame, worldUpdateCount]

/-- C3 (amended): one `Game::update` pass advances the simulation exactly once, audio
sync first and `world.update` second, for every value of `skipped` (also when the loop
ran zero times). -/
theorem update_advances_once (SKIP_TIME MAX_SKIP : Int) (g : Game F O) (currentTime : Int) :
    (∃ elapsedTime : Int, (g.update SKIP_TIME MAX_SKIP currentTime).calls =
        g.calls ++ [Call.soundManagerUpdate, Call.worldUpdate elapsedTime]) ∧
      worldUpdateCount (g.update SKIP_TIME MAX_SKIP currentTime).calls =
        worldUpdateCount g.calls + 1 := by
  refine ⟨⟨toInt32 (currentTime - g.lastUpdate), rfl⟩, ?_⟩
  simp [Game.update, worldUpdateCount, List.filter_append]

/-- A value in the range of a 32-bit `int` is stored unchanged. -/
theorem toInt32_of_fits (x : Int) (hlo : -2147483648 ≤ x) (hhi : x < 2147483648) :
    toInt32 x = x := by
  unfold toInt32
  omega

/-- C4 as stated fails: with `lastUpdate = 0` and `currentTime = 3000000000` (so
`lastUpdate ≤ currentTime`) the `int elapsedTime` handed to `world.update` is
`-1294967296`, not the elapsed `3000000000` ms. -/
theorem update_elapsed_time_counterexample :
    sampleGame.lastUpdate ≤ 3000000000 ∧
      (sampleGame.update 16 5 3000000000).calls =
        sampleGame.calls ++ [Call.soundManagerUpdate, Call.worldUpdate (-1294967296)] ∧
      (sampleGame.update 16 5 3000000000).calls ≠
        sampleGame.calls ++
          [Call.soundManagerUpdate, Call.worldUpdate (3000000000 - sampleGame.lastUpdate)] := by
  have hc : (sampleGame.update 16 5 3000000000).calls =
      sampleGame.calls ++ [Call.soundManagerUpdate, Call.worldUpdate (-1294967296)] := by
    simp [Game.update, sampleGame, toInt32]
  refine ⟨by decide, hc, ?_⟩
  rw [hc]
  simp [sampleGame]

/-- C4 (amended): when `lastUpdate ≤ currentTime` and `currentTime - lastUpdate < 2^31`,
`Game::update` hands `world.update` the non-negative delta `currentTime - lastUpdate`,
for every `SKIP_TIME`, `MAX_SKIP` and `nextUpdate`, and leaves
`lastUpdate = currentTime`. -/
theorem update_elapsed_time (SKIP_TIME MAX_SKIP : Int) (g : Game F O) (currentTime : Int)
    (h : g.lastUpdate ≤ currentTime) (hfit : currentTime - g.lastUpdate < 2 ^ 31) :
    (g.update SKIP_TIME MAX_SKIP currentTime).calls =
        g.calls ++ [Call.soundManagerUpdate, Call.worldUpdate (currentTime - g.lastUpdate)] ∧
      0 ≤ currentTime - g.lastUpdate ∧
      (g.update SKIP_TIME MAX_SKIP currentTime).lastUpdate = currentTime := by
  have hhi : currentTime - g.lastUpdate < 2147483648 := by
    have : (2 : Int) ^ 31 = 2147483648 := by norm_num
    omega
  have hw : toInt32 (currentTime - g.lastUpdate) = currentTime - g.lastUpdate :=
    toInt32_of_fits _ (by omega) hhi
  refine ⟨?_, by omega, rfl⟩
  simp only [Game.update, hw]

/-- Instance of the amended C4: the update at wall time 40 of a game last updated at 0. -/
theorem update_elapsed_time_witness :
    sampleGame.lastUpdate ≤ 40 ∧ 40 - sampleGame.lastUpdate < 2 ^ 31 ∧
      (sampleGame.update 16 5 40).calls =
        sampleGame.calls ++ [Call.soundManagerUpdate, Call.worldUpdate (40 - sampleGame.lastUpdate)] ∧
      0 ≤ 40 - sampleGame.lastUpdate ∧
      (sampleGame.update 16 5 40).lastUpdate = 40 :=
  ⟨by decide, by decide, update_elapsed_time 16 5 sampleGame 40 (by decide) (by decide)⟩

/-- C5: with `SKIP_TIME > 0`, `MAX_SKIP ≥ 0` and a lag larger than
`MAX_SKIP * SKIP_TIME`, one `Game::update` performs exactly `MAX_SKIP` catch-up steps
and leaves `nextUpdate = nextUpdate_initial + MAX_SKIP * SKIP_TIME`, still strictly
before `currentTime`; the pass completes normally, `Game.update` being a total function
that returns the next state. -/
theorem update_overload (SKIP_TIME MAX_SKIP : Int) (g : Game F O) (currentTime : Int)
    (hS : 0 < SKIP_TIME) (hM : 0 ≤ MAX_SKIP)
    (hlag : currentTime - g.nextUpdate > MAX_SKIP * SKIP_TIME) :
    g.skipped SKIP_TIME MAX_SKIP currentTime = MAX_SKIP ∧
      (g.update SKIP_TIME MAX_SKIP currentTime).nextUpdate =
        g.nextUpdate + MAX_SKIP * SKIP_TIME ∧
      (g.update SKIP_TIME MAX_SKIP currentTime).nextUpdate < currentTime := by
  have hc := catchUp_saturated SKIP_TIME MAX_SKIP currentTime g.nextUpdate hS hM hlag
  refine ⟨by simp [Game.skipped, hc], by simp [Game.update, hc], ?_⟩
  simp only [Game.update, hc]
  linarith

/-- Instance of C5: a jump of 1000 ms with `SKIP_TIME = 16`, `MAX_SKIP = 5`. -/
theorem update_overload_witness :
    (0 : Int) < 16 ∧ (0 : Int) ≤ 5 ∧ 1000 - sampleGame.nextUpdate > 5 * 16 ∧
      sampleGame.skipped 16 5 1000 = 5 ∧
      (sampleGame.update 16 5 1000).nextUpdate = sampleGame.nextUpdate + 5 * 16 ∧
      (sampleGame.update 16 5 1000).nextUpdate < 1000 :=
  ⟨by decide, by decide, by decide,
    update_overload 16 5 sampleGame 1000 (by decide) (by decide) (by decide)⟩

/-- One update, one step of 16 ms behind: the loop runs once. -/
theorem catchUp_one_step (M next : Int) (hM : 1 ≤ M) :
    catchUp 16 M (next + 16) next 0 = (next + 16, 1) := by
  obtain ⟨k, hk, hlo, hhi⟩ :=
    catchUp_caught 16 M (next + 16) next (by decide) (by omega) (by omega)
  have : (k : Int) = 1 := by omega
  rw [hk, this]
  simp

/-- C6: from `nextUpdate = 0` with `SKIP_TIME = 16` and `MAX_SKIP ≥ 1`, the updates at
wall times 0, 16, 32, 48 consume 3 catch-up steps in total and end with
`nextUpdate = 48`. -/
theorem update_scenario_16ms (MAX_SKIP : Int) (g : Game F O) (hM : 1 ≤ MAX_SKIP)
    (h0 : g.nextUpdate = 0) :
    (Game.updates 16 MAX_SKIP g [0, 16, 32, 48]).2 = 3 ∧
      (Game.updates 16 MAX_SKIP g [0, 16, 32, 48]).1.nextUpdate = 48 := by
  have e0 : catchUp 16 MAX_SKIP 0 0 0 = (0, 0) := catchUp_not_due _ _ _ _ _ le_rfl
  have e1 : catchUp 16 MAX_SKIP 16 0 0 = (16, 1) := by
    simpa using catchUp_one_step MAX_SKIP 0 hM
  have e2 : catchUp 16 MAX_SKIP 32 16 0 = (32, 1) := by
    simpa using catchUp_one_step MAX_SKIP 16 hM
  have e3 : catchUp 16 MAX_SKIP 48 32 0 = (48, 1) := by
    simpa using catchUp_one_step MAX_SKIP 32 hM
  simp [Game.updates, Game.update, Game.skipped, h0, e0, e1, e2, e3]

/-- Instance of C6 with `MAX_SKIP = 5`. -/
theorem update_scenario_16ms_witness :
    (1 : Int) ≤ 5 ∧ sampleGame.nextUpdate = 0 ∧
      (Game.updates 16 5 sampleGame [0, 16, 32, 48]).2 = 3 ∧
      (Game.updates 16 5 sampleGame [0, 16, 32, 48]).1.nextUpdate = 48 :=
  ⟨by decide, rfl, update_scenario_16ms 5 sampleGame (by decide) rfl⟩

/-- C10: with `SKIP_TIME > 0`, a positive lag of at most `MAX_SKIP * SKIP_TIME` is fully
caught up: the loop runs `ceil ((currentTime - nextUpdate_initial) / SKIP_TIME)` times
and `currentTime ≤ nextUpdate < currentTime + SKIP_TIME` afterwards; with no lag the
loop runs zero times and `nextUpdate` is unchanged. -/
theorem update_full_catch_up (SKIP_TIME MAX_SKIP : Int) (g : Game F O) (currentTime : Int)
    (hS : 0 < SKIP_TIME) :
    (g.nextUpdate < currentTime → currentTime - g.nextUpdate ≤ MAX_SKIP * SKIP_TIME →
        g.skipped SKIP_TIME MAX_SKIP currentTime =
          ⌈((currentTime - g.nextUpdate : Int) : ℚ) / ((SKIP_TIME : Int) : ℚ)⌉ ∧
        currentTime ≤ (g.update SKIP_TIME MAX_SKIP currentTime).nextUpdate ∧
        (g.update SKIP_TIME MAX_SKIP currentTime).nextUpdate < currentTime + SKIP_TIME) ∧
      (currentTime ≤ g.nextUpdate →
        g.skipped SKIP_TIME MAX_SKIP currentTime = 0 ∧
        (g.update SKIP_TIME MAX_SKIP currentTime).nextUpdate = g.nextUpdate) := by
  constructor
  · intro hlag hfit
    obtain ⟨k, hk, hlo, hhi⟩ :=
      catchUp_caught SKIP_TIME MAX_SKIP currentTime g.nextUpdate hS hlag hfit
    rw [ceil_div_of_bounds _ _ (k : Int) hS hlo hhi]
    refine ⟨by simp [Game.skipped, hk], ?_, ?_⟩ <;> simp only [Game.update, hk] <;> linarith
  · intro hle
    simp [Game.skipped, Game.update, catchUp_not_due _ _ _ _ _ hle]

/-- Instance of C10: 33 ms of lag and no lag, with `SKIP_TIME = 16`, `MAX_SKIP = 5`. -/
theorem update_full_catch_up_witness :
    (0 : Int) < 16 ∧
      (sampleGame.skipped 16 5 33 =
          ⌈(((33 : Int) - sampleGame.nextUpdate : Int) : ℚ) / ((16 : Int) : ℚ)⌉ ∧
        33 ≤ (sampleGame.update 16 5 33).nextUpdate ∧
        (sampleGame.update 16 5 33).nextUpdate < 33 + 16) ∧
      (sampleGame.skipped 16 5 0 = 0 ∧
        (sampleGame.update 16 5 0).nextUpdate = sampleGame.nextUpdate) :=
  ⟨by decide,
    (update_full_catch_up 16 5 sampleGame 33 (by decide)).1 (by decide) (by decide),
    (update_full_catch_up 16 5 sampleGame 0 (by decide)).2 (by decide)⟩

end scheduler

/-! ## Lifecycle -/

section lifecycle

variable {F O : Type} [Add F] [Zero F] [Div F] [IntCast F]

/-- No operation clears a set `closed` flag. -/
theorem step_keeps_closed (SKIP_TIME MAX_SKIP : Int) (g : Game F O) (op : Op F O)
    (h : g.closed = true) : (g.step SKIP_TIME MAX_SKIP op).closed = true := by
  cases op with
  | processInput qDown =>
    cases qDown <;> simp [Game.step, Game.processInput, Game.close, h]
  | update ticks => simpa [Game.step, Game.update] using h
  | render w ht player => simpa [Game.step, Game.render, Game.prepareCamera] using h
  | cleanUp => simpa [Game.step, Game.cleanUp] using h
  | close => simp [Game.step, Game.close]

/-- No sequence of operations clears a set `closed` flag. -/
theorem run_keeps_closed (SKIP_TIME MAX_SKIP : Int) (ops : List (Op F O)) :
    ∀ g : Game F O, g.closed = true → (g.run SKIP_TIME MAX_SKIP ops).closed = true := by
  induction ops with
  | nil => intro g h; simpa [Game.run] using h
  | cons op ops ih =>
    intro g h
    have := ih (g.step SKIP_TIME MAX_SKIP op) (step_keeps_closed SKIP_TIME MAX_SKIP g op h)
    simpa [Game.run] using this

/-- C7: the running flag is one-way. If `closed` is true after the operations `before`,
applied to any game state, then after any further operations `later` it is still true
and `isRunning()` returns false. -/
theorem running_flag_one_way (SKIP_TIME MAX_SKIP : Int) (g : Game F O)
    (before later : List (Op F O))
    (h : (g.run SKIP_TIME MAX_SKIP before).closed = true) :
    (g.run SKIP_TIME MAX_SKIP (before ++ later)).closed = true ∧
      (g.run SKIP_TIME MAX_SKIP (before ++ later)).isRunning = false := by
  have hc : (g.run SKIP_TIME MAX_SKIP (before ++ later)).closed = true := by
    have := run_keeps_closed SKIP_TIME MAX_SKIP later (g.run SKIP_TIME MAX_SKIP before) h
    simpa [Game.run, List.foldl_append] using this
  exact ⟨hc, by simp [Game.isRunning, hc]⟩

/-- Instance of C7: the quit key is seen at the second frame, then the frame functions
and `cleanUp` still run. -/
theorem running_flag_one_way_witness :
    (sampleGame.run 16 5 [Op.processInput false, Op.update 16, Op.processInput true]).closed
        = true ∧
      (sampleGame.run 16 5 ([Op.processInput false, Op.update 16, Op.processInput true] ++
        [Op.update 40, Op.render 1920 1080 samplePlayer, Op.processInput false,
          Op.cleanUp])).closed = true ∧
      (sampleGame.run 16 5 ([Op.processInput false, Op.update 16, Op.processInput true] ++
        [Op.update 40, Op.render 1920 1080 samplePlayer, Op.processInput false,
          Op.cleanUp])).isRunning = false :=
  ⟨rfl, running_flag_one_way 16 5 sampleGame _ _ rfl⟩

end lifecycle

/-! ## Map selection -/

section mapSelection

variable {F O : Type}

/-- A string has positive length exactly when it is not the empty string. -/
theorem string_length_pos_iff (s : String) : s.length > 0 ↔ s ≠ "" := by
  cases s with
  | mk data =>
    cases data with
    | nil => simp [String.length]
    | cons c cs =>
      simp [String.length]
      intro h
      have := congrArg String.data h
      simp at this

/-- C8: `Game::loadMap` issues exactly one load call; its path is `config.mapPath`
itself when that is non-empty, and `dataDir ++ "/maps/n1.xml"` when it is empty. -/
theorem loadMap_path (g : Game F O) (dataDir : String) :
    (g.config.mapPath ≠ "" →
        (g.loadMap dataDir).calls = g.calls ++ [Call.mapLoaderLoad g.config.mapPath]) ∧
      (g.config.mapPath = "" →
        (g.loadMap dataDir).calls =
          g.calls ++ [Call.mapLoaderLoad (dataDir ++ "/maps/n1.xml")]) := by
  constructor
  · intro h
    have hpos : g.config.mapPath.length > 0 := (string_length_pos_iff _).2 h
    simp [Game.loadMap, hpos]
  · intro h
    have hz : ¬ g.config.mapPath.length > 0 := by
      rw [string_length_pos_iff]; simpa using h
    simp only [Game.loadMap, if_neg hz]

/-- Instance of C8: the configured path `/x/y.xml` is passed on unmodified, and an empty
`mapPath` selects the default below the data directory. -/
theorem loadMap_path_witness :
    ({ sampleGame with config := { cursorVisibility := false, mapPath := "/x/y.xml" } }.loadMap
        "/usr/share/glportal/data").calls = [Call.mapLoaderLoad "/x/y.xml"] ∧
      (sampleGame.loadMap "/usr/share/glportal/data").calls =
        [Call.mapLoaderLoad "/usr/share/glportal/data/maps/n1.xml"] :=
  ⟨(loadMap_path { sampleGame with
        config := { cursorVisibility := false, mapPath := "/x/y.xml" } } _).1 (by decide),
    (loadMap_path sampleGame "/usr/share/glportal/data").2 rfl⟩

end mapSelection

/-! ## Camera -/

section camera

variable {F O : Type} [Add F] [Zero F] [Div F] [IntCast F]

/-- C9: `Game::prepareCamera` sets the camera position to the player position plus the
offset `(0, scale.y, 0)`: the vertical scale, unscaled, on the up axis and zero on the
other two axes. -/
theorem prepareCamera_position (g : Game F O) (viewportWidth viewportHeight : Int)
    (player : Entity F O) :
    (g.prepareCamera viewportWidth viewportHeight player).camera.position =
        player.transform.position + (⟨0, player.transform.scale.y, 0⟩ : Vector3f F) ∧
      (g.prepareCamera viewportWidth viewportHeight player).camera.position.x =
        player.transform.position.x + 0 ∧
      (g.prepareCamera viewportWidth viewportHeight player).camera.position.y =
        player.transform.position.y + player.transform.scale.y ∧
      (g.prepareCamera viewportWidth viewportHeight player).camera.position.z =
        player.transform.position.z + 0 :=
  ⟨rfl, rfl, rfl, rfl⟩

/-- Instance of C9: a player at `(1, 2, 3)` with vertical scale `1.8` puts the camera at
`(1, 2 + 1.8, 3)`. -/
theorem prepareCamera_position_witness :
    (sampleGame.prepareCamera 1920 1080 samplePlayer).camera.position =
      (⟨1, 2 + 9 / 5, 3⟩ : Vector3f ℚ) := by
  rw [(prepareCamera_position sampleGame 1920 1080 samplePlayer).1]
  show Vector3f.add _ _ = _
  simp [Vector3f.add, samplePlayer]

end camera

end glPortal
